import Mathlib

/-!
Verification development for the Service20 matching and bundling engine
(`matching_agent.py`, `message_handlers.py`, and the persistence helpers).

The Python code works on nested dictionaries with `.get` defaults; the
embedding mirrors each dictionary section as a structure whose fields carry
the default used at every access site (`''` or `0`).  Fields whose absence
is distinguished from the empty value at some call site (top-level
`sector`/`city`/`country` injected by the research join, and
`criteria.sector.primary`, which defaults to `''` in the scorer but to
`'unknown'` in the sector grouping) are modelled as `Option String`, with
`none` standing for a missing key.  Python floats are modelled as exact
rationals; every numeric literal of the source appears verbatim.
-/

/-- Financial section of a criteria document.  Every access site uses
default 0 for a missing key, so plain rationals suffice. -/
structure FinancialInfo where
  amount : ℚ := 0
  roi_expected : ℚ := 0
  minimum_required : ℚ := 0
  carbon_reduction_tons_annually : ℚ := 0
deriving DecidableEq

/-- Sector section of a criteria document.  `primary` is optional because
the grouping code defaults a missing key to `'unknown'` while the scorer
defaults it to `''`. -/
structure SectorInfo where
  primary : Option String := none
deriving DecidableEq

/-- Timeline section of a criteria document (accessed with default `''`). -/
structure TimelineInfo where
  execution_start : String := ""
  completion : String := ""
deriving DecidableEq

/-- Technical section of a criteria document. -/
structure TechnicalInfo where
  technology : String := ""
  capacity_mw : ℚ := 0
deriving DecidableEq

/-- Location section of a criteria document; the bundle analyzer defaults
missing keys to `'Unknown'`. -/
structure LocationInfo where
  city : Option String := none
  country : Option String := none
deriving DecidableEq

/-- The nested `criteria` document of a `service20_alerts` row. -/
structure Criteria where
  sector : SectorInfo := {}
  financial : FinancialInfo := {}
  timeline : TimelineInfo := {}
  technical : TechnicalInfo := {}
  location : LocationInfo := {}
deriving DecidableEq

/-- An alert record as assembled by `get_active_alerts`: the criteria
document plus the optional top-level `sector`/`city`/`country` fields
copied from the originating research row when present. -/
structure Alert where
  alert_id : String := ""
  research_id : String := ""
  sector : Option String := none
  city : Option String := none
  country : Option String := none
  criteria : Criteria := {}
deriving DecidableEq

/-! ## String helpers -/

/-- Model of Python's `str.lower()`: lower-case every character.  (Stated
over the character list so that concrete instances evaluate by kernel
reduction; the sector strings involved are ASCII.) -/
def pyLower (s : String) : String := ⟨s.data.map Char.toLower⟩

/-- Model of Python's slice `s[:n]`. -/
def pyPrefix (n : Nat) (s : String) : String := ⟨s.data.take n⟩

/-- Appends an element to a list when it is not already present: the
deterministic (insertion-ordered) refinement of `set.add` followed by
`list(...)` used by the source; no property below depends on the order. -/
def addUnique (l : List String) (s : String) : List String :=
  if s ∈ l then l else l ++ [s]

/-- Number of distinct elements of a list, the model of `len(set(xs))`. -/
def distinctCount (l : List String) : Nat := (l.foldl addUnique []).length

/-! ## Compatibility Scorer (`CompatibilityScorer` in `matching_agent.py`) -/

/-- Weight of the sector-alignment sub-score (`score += sector_score * 0.30`). -/
def sectorWeight : ℚ := 0.30

/-- Weight of the financial-fit sub-score (`score += financial_score * 0.25`). -/
def financialWeight : ℚ := 0.25

/-- Weight of the timeline sub-score (`score += timeline_score * 0.20`). -/
def timelineWeight : ℚ := 0.20

/-- Weight of the ROI sub-score (`score += roi_score * 0.15`). -/
def roiWeight : ℚ := 0.15

/-- Weight of the technical sub-score (`score += tech_score * 0.10`). -/
def technicalWeight : ℚ := 0.10

/-- The sector string the scorer attributes to one opportunity:
`opp.get('sector', '').lower()`, falling back to
`opp.get('criteria', {}).get('sector', {}).get('primary', '').lower()`
when the first is empty. -/
def oppScoringSector (opp : Alert) : String :=
  let s := pyLower (opp.sector.getD "")
  if s = "" then pyLower (opp.criteria.sector.primary.getD "") else s

/-- The static related-sector lookup table of `_score_sector_alignment`. -/
def relatedSectors (s : String) : List String :=
  if s = "renewable_energy" then ["solar_energy", "wind_energy", "energy_storage"]
  else if s = "solar_energy" then ["renewable_energy"]
  else if s = "wind_energy" then ["renewable_energy"]
  else if s = "energy_storage" then ["renewable_energy", "solar_energy", "wind_energy"]
  else []

/-- Keys of the related-sector table (`funder_primary in related_sectors`). -/
def relatedSectorKeys : List String :=
  ["renewable_energy", "solar_energy", "wind_energy", "energy_storage"]

/-- Embedding of `CompatibilityScorer._score_sector_alignment`. -/
def scoreSectorAlignment (funder_sector : SectorInfo) (opportunities : List Alert) :
    ℚ × List String :=
  let funder_primary := pyLower (funder_sector.primary.getD "")
  if funder_primary = "" then (0.5, ["sector_unknown"])
  else
    let opp_sectors := opportunities.map oppScoringSector
    let all_match := (opp_sectors.filter (fun s => s ≠ "")).all (fun s => s = funder_primary)
    if all_match then (1.0, ["sector_perfect_match"])
    else if opp_sectors.any (fun s => s = funder_primary) then (0.6, ["sector_partial_match"])
    else if funder_primary ∈ relatedSectorKeys ∧
        opp_sectors.any (fun s => s ∈ relatedSectors funder_primary) then
      (0.7, ["sector_related_match"])
    else (0.2, ["sector_mismatch"])

/-- Sum of `criteria.financial.amount` over a list of opportunities, as
computed at the top of `_score_financial_fit` and in the bundle loop. -/
def totalAmount (opportunities : List Alert) : ℚ :=
  (opportunities.map (fun o => o.criteria.financial.amount)).sum

/-- Embedding of `CompatibilityScorer._score_financial_fit`.  Warning texts
are f-strings interpolating dollar amounts in the source; they are kept
here as stable tags since no consumer inspects the text. -/
def scoreFinancialFit (funder_financial : FinancialInfo) (opportunities : List Alert) :
    ℚ × List String × List String :=
  let total_investment := totalAmount opportunities
  let minimum_required := funder_financial.minimum_required
  let funding_available := funder_financial.amount
  let base : ℚ × List String × List String :=
    if 0 < minimum_required then
      if minimum_required ≤ total_investment then (1.0, ["minimum_scale_met"], [])
      else if minimum_required * 0.8 ≤ total_investment then
        (0.7, ["minimum_scale_nearly_met"], ["investment_slightly_below_minimum"])
      else (0.3, [], ["investment_well_below_minimum"])
    else (0.8, [], [])
  if 0 < funding_available then
    if total_investment ≤ funding_available then
      (base.1, base.2.1 ++ ["within_funding_capacity"], base.2.2)
    else if total_investment ≤ funding_available * 1.2 then
      (base.1, base.2.1, base.2.2 ++ ["investment_slightly_exceeds_available"])
    else
      (base.1 * 0.7, base.2.1, base.2.2 ++ ["investment_significantly_exceeds_available"])
  else base

/-- Embedding of `CompatibilityScorer._score_timeline_compatibility`.  The
funder timeline argument is unused in the source as well. -/
def scoreTimelineCompatibility (funder_timeline : TimelineInfo) (opportunities : List Alert) :
    ℚ × List String × List String :=
  let _ := funder_timeline
  let execution_starts :=
    (opportunities.map (fun o => o.criteria.timeline.execution_start)).filter
      (fun s => s ≠ "")
  if 2 ≤ execution_starts.length then
    let years := ((execution_starts.filter (fun s => 4 ≤ s.length)).map
      (fun s => pyPrefix 4 s))
    if distinctCount years = 1 then (1.0, ["timeline_aligned"], [])
    else (0.6, [], ["timelines_span_multiple_years"])
  else (0.7, [], [])

/-- Embedding of `CompatibilityScorer._score_roi_expectations`. -/
def scoreRoiExpectations (funder_financial : FinancialInfo) (opportunities : List Alert) :
    ℚ × List String :=
  let total_investment := totalAmount opportunities
  let weighted_roi :=
    (opportunities.map
      (fun o => o.criteria.financial.amount * o.criteria.financial.roi_expected)).sum
  let blended_roi := if 0 < total_investment then weighted_roi / total_investment else 0
  let funder_roi_min := funder_financial.roi_expected
  if funder_roi_min ≤ blended_roi then
    if funder_roi_min * 1.2 ≤ blended_roi then
      (1.0, ["roi_acceptable", "roi_exceeds_expectations"])
    else (0.9, ["roi_acceptable"])
  else if funder_roi_min * 0.8 ≤ blended_roi then (0.6, ["roi_nearly_acceptable"])
  else (0.3, [])

/-- Embedding of `CompatibilityScorer._score_technical_compatibility`.  The
funder technical argument is unused in the source as well. -/
def scoreTechnicalCompatibility (funder_technical : TechnicalInfo)
    (opportunities : List Alert) : ℚ × List String :=
  let _ := funder_technical
  let technologies :=
    (opportunities.map (fun o => o.criteria.technical.technology)).filter (fun t => t ≠ "")
  if distinctCount technologies ≤ 1 then (1.0, ["technology_consistent"])
  else (0.7, ["mixed_technologies"])

/-- Embedding of `CompatibilityScorer.calculate_score`: the weighted sum of
the five sub-scores, with the concatenated criteria and warning lists. -/
def calculate_score (funder : Alert) (opportunities : List Alert) :
    ℚ × List String × List String :=
  let fc := funder.criteria
  let sector := scoreSectorAlignment fc.sector opportunities
  let financial := scoreFinancialFit fc.financial opportunities
  let timeline := scoreTimelineCompatibility fc.timeline opportunities
  let roi := scoreRoiExpectations fc.financial opportunities
  let tech := scoreTechnicalCompatibility fc.technical opportunities
  (sector.1 * sectorWeight + financial.1 * financialWeight + timeline.1 * timelineWeight
      + roi.1 * roiWeight + tech.1 * technicalWeight,
   sector.2 ++ financial.2.1 ++ timeline.2.1 ++ roi.2 ++ tech.2,
   financial.2.2 ++ timeline.2.2)

/-! ## Bundle Analyzer (`BundleAnalyzer.calculate_bundle_metrics`) -/

/-- Rounding to the nearest integer with ties to even, the behaviour of
Python's built-in `round` (here idealised over exact rationals). -/
def roundHalfEven (x : ℚ) : ℤ :=
  let f := ⌊x⌋
  let r := x - f
  if r < 1/2 then f
  else if 1/2 < r then f + 1
  else if f % 2 = 0 then f else f + 1

/-- Python's `round(x, 2)` on the idealised rational value. -/
def roundTo2 (x : ℚ) : ℚ := (roundHalfEven (x * 100) : ℚ) / 100

/-- Result record of `BundleAnalyzer.calculate_bundle_metrics`. -/
structure BundleMetrics where
  total_investment : ℚ
  blended_roi : ℚ
  total_carbon_reduction : ℚ
  average_carbon_per_project : ℚ
  total_capacity_mw : ℚ
  opportunity_count : Nat
  countries : List String
  cities : List String
  sectors : List String
  technologies : List String
  geographic_spread : Nat
  earliest_start_date : Option String
  latest_completion_date : Option String
deriving DecidableEq

/-- Country attributed to one opportunity by the analyzer:
`opp.get('country', location.get('country', 'Unknown'))`. -/
def metricCountry (opp : Alert) : String :=
  opp.country.getD (opp.criteria.location.country.getD "Unknown")

/-- City attributed to one opportunity by the analyzer. -/
def metricCity (opp : Alert) : String :=
  opp.city.getD (opp.criteria.location.city.getD "Unknown")

/-- Sector attributed to one opportunity by the analyzer: the top-level
sector, else the criteria primary sector, else `'Unknown'`. -/
def metricSector (opp : Alert) : String :=
  opp.sector.getD (opp.criteria.sector.primary.getD "Unknown")

/-- Embedding of `BundleAnalyzer.calculate_bundle_metrics`. -/
def calculate_bundle_metrics (opportunities : List Alert) : BundleMetrics :=
  let total_investment := totalAmount opportunities
  let weighted_roi :=
    (opportunities.map
      (fun o => o.criteria.financial.amount * o.criteria.financial.roi_expected)).sum
  let total_carbon :=
    (opportunities.map (fun o => o.criteria.financial.carbon_reduction_tons_annually)).sum
  let total_capacity :=
    (opportunities.map (fun o => o.criteria.technical.capacity_mw)).sum
  let countries := opportunities.foldl (fun acc o => addUnique acc (metricCountry o)) []
  let cities := opportunities.foldl (fun acc o => addUnique acc (metricCity o)) []
  let sectors := opportunities.foldl (fun acc o => addUnique acc (metricSector o)) []
  let technologies := opportunities.foldl
    (fun acc o =>
      let t := o.criteria.technical.technology
      if t = "" then acc else addUnique acc t) []
  let earliest_start := opportunities.foldl
    (fun acc o =>
      let s := o.criteria.timeline.execution_start
      if s = "" then acc
      else match acc with
        | none => some s
        | some e => if s < e then some s else some e) none
  let latest_completion := opportunities.foldl
    (fun acc o =>
      let e := o.criteria.timeline.completion
      if e = "" then acc
      else match acc with
        | none => some e
        | some l => if l < e then some e else some l) none
  let blended_roi := if 0 < total_investment then weighted_roi / total_investment else 0
  { total_investment := total_investment
    blended_roi := roundTo2 blended_roi
    total_carbon_reduction := total_carbon
    average_carbon_per_project :=
      if opportunities.length ≠ 0 then total_carbon / opportunities.length else 0
    total_capacity_mw := total_capacity
    opportunity_count := opportunities.length
    countries := countries
    cities := cities
    sectors := sectors
    technologies := technologies
    geographic_spread := countries.length
    earliest_start_date := earliest_start
    latest_completion_date := latest_completion }

/-! ## Matching Orchestrator (`MatchingAgent.find_matches`) -/

/-- The `self.max_bundle_size = 5` attribute of `MatchingAgent`. -/
def max_bundle_size : Nat := 5

/-- The k-element combinations of a list, in the order emitted by Python's
`itertools.combinations`: combinations containing the first element come
first, each keeping the relative order of the input. -/
def combinations : List α → Nat → List (List α)
  | _, 0 => [[]]
  | [], _ + 1 => []
  | x :: xs, k + 1 => (combinations xs k).map (fun c => x :: c) ++ combinations xs (k + 1)

/-- The sector under which `find_matches` groups one investment alert:
`opp.get('sector', criteria sector primary with default 'unknown').lower()`. -/
def groupSector (opp : Alert) : String :=
  pyLower (opp.sector.getD (opp.criteria.sector.primary.getD "unknown"))

/-- The lower-cased primary sector of a funder, used both for the bucket
lookup and inside the scorer. -/
def funderPrimarySector (funder : Alert) : String :=
  pyLower (funder.criteria.sector.primary.getD "")

/-- The sector bucket a funder looks up: the investment alerts whose group
sector equals the funder's primary sector, in fetch order (the dict built
by `find_matches` appends alerts in iteration order). -/
def sectorBucket (investment_alerts : List Alert) (funder : Alert) : List Alert :=
  investment_alerts.filter (fun o => groupSector o = funderPrimarySector funder)

/-- One entry of the `matches_created` list built by `find_matches`,
together with the data passed to `create_bundle` for the persisted record
(the opportunity list, score, criteria and warnings). -/
structure MatchRec where
  opportunities : List Alert
  matchType : String
  score : ℚ
  criteriaMet : List String
  warnings : List String
  confidence : String
deriving DecidableEq, Inhabited

/-- The single-opportunity pass of `find_matches`: every opportunity of the
bucket scoring at least 0.60 is persisted as a `simple` match. -/
def singleMatches (funder : Alert) (bucket : List Alert) : List MatchRec :=
  bucket.filterMap (fun opp =>
    let r := calculate_score funder [opp]
    if (0.60 : ℚ) ≤ r.1 then
      some { opportunities := [opp], matchType := "simple", score := r.1,
             criteriaMet := r.2.1, warnings := r.2.2,
             confidence := if (0.80 : ℚ) ≤ r.1 then "high" else "medium" }
    else none)

/-- A surviving bundle candidate: the combination together with its score,
criteria and warnings (the `best_bundle` dictionary of the source). -/
structure Candidate where
  opportunities : List Alert
  score : ℚ
  criteriaMet : List String
  warnings : List String
deriving DecidableEq

/-- One iteration of the combination loop of `find_matches`: skip the
combination when its summed investment is below 80% of the funder minimum,
otherwise score it and take it as new best when the score is at least 0.60
and strictly beats the running best score (initially 0). -/
def comboStep (funder : Alert) (minimum_investment : ℚ)
    (acc : ℚ × Option Candidate) (combo : List Alert) : ℚ × Option Candidate :=
  let total := totalAmount combo
  if total < minimum_investment * 0.8 then acc
  else
    let r := calculate_score funder combo
    if (0.60 : ℚ) ≤ r.1 ∧ acc.1 < r.1 then
      (r.1, some { opportunities := combo, score := r.1, criteriaMet := r.2.1,
                   warnings := r.2.2 })
    else acc

/-- The best surviving candidate of one bundle size, as selected by the
inner loop of `find_matches` over all combinations of that size. -/
def bestBundleForSize (funder : Alert) (bucket : List Alert) (minimum_investment : ℚ)
    (size : Nat) : Option Candidate :=
  ((combinations bucket size).foldl (comboStep funder minimum_investment) (0, none)).2

/-- The bundle sizes tried for a bucket of n opportunities:
`range(2, min(n + 1, max_bundle_size + 1))`. -/
def bundleSizes (n : Nat) : List Nat :=
  List.range' 2 (min (n + 1) (max_bundle_size + 1) - 2)

/-- The bundled pass of `find_matches`: for each size, persist the best
surviving candidate of that size, when one exists. -/
def bundleMatches (funder : Alert) (bucket : List Alert) (minimum_investment : ℚ) :
    List MatchRec :=
  (bundleSizes bucket.length).filterMap (fun size =>
    (bestBundleForSize funder bucket minimum_investment size).map (fun b =>
      { opportunities := b.opportunities, matchType := "bundled", score := b.score,
        criteriaMet := b.criteriaMet, warnings := b.warnings,
        confidence := if (0.80 : ℚ) ≤ b.score then "high" else "medium" }))

/-- The matches `find_matches` creates for one funder: the single pass over
its sector bucket, then the bundled pass when the funder has a positive
minimum requirement and the bucket holds at least two opportunities.  An
empty bucket is skipped (`continue`). -/
def funderMatches (investment_alerts : List Alert) (funder : Alert) : List MatchRec :=
  let bucket := sectorBucket investment_alerts funder
  let minimum_investment := funder.criteria.financial.minimum_required
  if bucket.isEmpty then []
  else
    singleMatches funder bucket ++
      (if 0 < minimum_investment ∧ 2 ≤ bucket.length then
        bundleMatches funder bucket minimum_investment
      else [])

/-- Embedding of `MatchingAgent.find_matches`: the matches created over all
funders, in processing order.  The model treats every `create_bundle` call
as a persisted record (database failures are out of scope). -/
def findMatches (investment_alerts funding_alerts : List Alert) : List MatchRec :=
  funding_alerts.flatMap (funderMatches investment_alerts)

/-! ## Outbound messages (`MatchingAgent.process_match_request`) -/

/-- A message the matching agent sends during one run: either a
`match_found` notification carrying one match, or the aggregate
`match_result` summary with its payload counters. -/
inductive EmittedMessage where
  | matchFound (m : MatchRec) : EmittedMessage
  | matchResult (total_matches high_confidence medium_confidence
      investment_alerts_processed funding_alerts_processed : Nat) : EmittedMessage
deriving DecidableEq

/-- Recognises the aggregate `match_result` summary message. -/
def isMatchResult : EmittedMessage → Bool
  | .matchResult _ _ _ _ _ => true
  | _ => false

/-- Recognises a `match_found` notification. -/
def isMatchFound : EmittedMessage → Bool
  | .matchFound _ => true
  | _ => false

/-- Embedding of `MatchingAgent.process_match_request`, restricted to its
externally visible output: the SQS messages sent.  The source returns early
(sending nothing) when the run finds no active funding alerts, and again
when it finds no active investment alerts; otherwise it sends one
`match_found` per high-confidence match and then one `match_result`. -/
def processMatchRequest (investment_alerts funding_alerts : List Alert) :
    List EmittedMessage :=
  if funding_alerts.isEmpty then []
  else if investment_alerts.isEmpty then []
  else
    let found := findMatches investment_alerts funding_alerts
    let high := found.filter (fun m => m.confidence = "high")
    high.map EmittedMessage.matchFound ++
      [EmittedMessage.matchResult found.length high.length
        (found.filter (fun m => m.confidence = "medium")).length
        investment_alerts.length funding_alerts.length]

/-! ## Persistence (`create_bundle` and the batch term-matching upsert)

The SQL schema files referenced by `setup_database.py` are not part of the
source tree, so the table is modelled as an unconstrained list of rows;
what matters below is the shape of the executed statements themselves:
`create_bundle` runs a plain `INSERT` with no `ON CONFLICT` clause, while
`save_match_result` in `run_batch_term_matching.py` runs
`INSERT ... ON CONFLICT (match_id) DO UPDATE SET` over the five mutable
columns. -/

/-- A row of `service20_bundles` as written by `create_bundle`.  Columns
not referenced by any property (metrics breakdown, rationale, dates) are
elided; they carry no identity. -/
structure BundleRow where
  bundle_id : String
  bundle_name : String
  bundle_description : String
  opportunity_ids : List String
  opportunity_count : Nat
  cities : List String
  compatibility_score : ℚ
  confidence_level : String
deriving DecidableEq

/-- The effect on the bundles table of one successful execution of
`create_bundle`'s `INSERT` statement: the statement has no conflict clause,
so each execution appends a fresh row. -/
def insertBundleRow (table : List BundleRow) (r : BundleRow) : List BundleRow :=
  table ++ [r]

/-- The deterministic bundle id generated by `create_bundle`:
`bundle-` + UTC timestamp to second granularity + opportunity count. -/
def mkBundleId (timestamp : String) (opportunity_count : Nat) : String :=
  "bundle-" ++ timestamp ++ "-" ++ toString opportunity_count ++ "opp"

/-- A row of `service20_matches` as written by `save_match_result` in
`run_batch_term_matching.py`; the five columns of its
`ON CONFLICT ... DO UPDATE SET` list are the mutable ones. -/
structure MatchRow where
  match_id : String
  bundle_name : String
  bundle_description : String
  opportunity_ids : List String
  opportunity_count : Nat
  cities : List String
  overall_match_score : ℚ
  match_analysis : String
deriving DecidableEq

/-- The effect of `save_match_result`'s statement: insert, or on a
`match_id` conflict update only `bundle_name`, `bundle_description`,
`cities`, `overall_match_score` and `match_analysis`. -/
def upsertMatchRow (table : List MatchRow) (r : MatchRow) : List MatchRow :=
  if table.any (fun row => row.match_id = r.match_id) then
    table.map (fun row =>
      if row.match_id = r.match_id then
        { row with bundle_name := r.bundle_name,
                   bundle_description := r.bundle_description,
                   cities := r.cities,
                   overall_match_score := r.overall_match_score,
                   match_analysis := r.match_analysis }
      else row)
  else table ++ [r]

/-! ## Queue acknowledgement (`message_handlers.py` and `MatchingAgent.run`) -/

/-- A received queue message: envelope fields relevant to acknowledgement. -/
structure QueueMessage where
  message_id : String
  receipt_handle : String
  msgType : String
deriving DecidableEq

/-- How one invocation of a registered handler coroutine ends: it either
returns (completes) or raises. -/
inductive HandlerRun where
  | completes
  | raises
deriving DecidableEq

/-- Embedding of `MessageHandler.process_message`: look up the handler for
the message type; no handler means `False`; a handler that completes means
`True`; a raising handler is caught by the surrounding `except` and means
`False`. -/
def processMessage (handlers : String → Option (QueueMessage → HandlerRun))
    (m : QueueMessage) : Bool :=
  match handlers m.msgType with
  | none => false
  | some h =>
    match h m with
    | .completes => true
    | .raises => false

/-- The messages one batch iteration of `MessageHandler.poll_and_process`
deletes: exactly those for which `process_message` returned `True`, and
only when `delete_after_processing` is set. -/
def pollBatchDeleted (handlers : String → Option (QueueMessage → HandlerRun))
    (delete_after_processing : Bool) (messages : List QueueMessage) :
    List QueueMessage :=
  messages.filter (fun m => processMessage handlers m && delete_after_processing)

/-- How one call of `MatchingAgent.process_match_request` ends for a given
message: returns `True`, returns `False`, or raises. -/
inductive RequestOutcome where
  | succeeded
  | failed
  | raised
deriving DecidableEq

/-- The messages one batch iteration of `MatchingAgent.run` deletes.  A
`True` return deletes the message and the loop continues; a `False` return
leaves it undeleted and continues; an exception propagates out of the
`for` loop to the outer `except`, abandoning the rest of the batch. -/
def runBatchDeleted (outcome : QueueMessage → RequestOutcome) :
    List QueueMessage → List QueueMessage
  | [] => []
  | m :: rest =>
    match outcome m with
    | .succeeded => m :: runBatchDeleted outcome rest
    | .failed => runBatchDeleted outcome rest
    | .raised => []

/-! ## Concrete records used to instantiate the properties -/

/-- The funder of the specification's worked scenarios: solar energy,
minimum requirement one million, expected ROI ten percent. -/
def scenarioFunder : Alert :=
  { alert_id := "funder-1",
    criteria := { sector := { primary := some "solar_energy" },
                  financial := { minimum_required := 1000000, roi_expected := 10 } } }

/-- A single solar-energy opportunity needing an investment of 200,000. -/
def scenarioOpp : Alert :=
  { alert_id := "opp-1",
    criteria := { sector := { primary := some "solar_energy" },
                  financial := { amount := 200000 } } }

/-- A solar-energy opportunity of 500,000 at 18 percent ROI. -/
def bundleOppA : Alert :=
  { alert_id := "opp-a",
    criteria := { sector := { primary := some "solar_energy" },
                  financial := { amount := 500000, roi_expected := 18 },
                  timeline := { execution_start := "2026-01-01" } } }

/-- A solar-energy opportunity of 600,000 at 17 percent ROI. -/
def bundleOppB : Alert :=
  { alert_id := "opp-b",
    criteria := { sector := { primary := some "solar_energy" },
                  financial := { amount := 600000, roi_expected := 17 },
                  timeline := { execution_start := "2026-06-01" } } }

/-- An alert with every criteria field absent. -/
def blankOpp : Alert := { alert_id := "opp-blank" }

/-- A sample bundle row as `create_bundle` would assemble it. -/
def sampleBundleRow : BundleRow :=
  { bundle_id := mkBundleId "20260101120000" 2,
    bundle_name := "Solar_Energy Portfolio - Paris, Lyon",
    bundle_description := "Bundle of 2 solar_energy projects across 2 cities",
    opportunity_ids := ["11", "12"],
    opportunity_count := 2,
    cities := ["Paris", "Lyon"],
    compatibility_score := 0.75,
    confidence_level := "medium" }

/-- A first write of a term-match row. -/
def sampleMatchRow1 : MatchRow :=
  { match_id := "term-match-7",
    bundle_name := "Term Match - Opp 7",
    bundle_description := "Location: Manchester - Term-based match",
    opportunity_ids := ["7"],
    opportunity_count := 1,
    cities := ["Manchester"],
    overall_match_score := 0.64,
    match_analysis := "first analysis" }

/-- A second write of the same term-match row with fresh mutable fields. -/
def sampleMatchRow2 : MatchRow :=
  { match_id := "term-match-7",
    bundle_name := "Term Match - Opp 7 (rerun)",
    bundle_description := "Location: Manchester - Term-based match v2",
    opportunity_ids := ["7", "8"],
    opportunity_count := 2,
    cities := ["Manchester", "Leeds"],
    overall_match_score := 0.71,
    match_analysis := "second analysis" }

/-- A sample received queue message. -/
def sampleMessage : QueueMessage :=
  { message_id := "m-1", receipt_handle := "rh-1", msgType := "match_request" }

/-- A second sample queue message. -/
def sampleMessage2 : QueueMessage :=
  { message_id := "m-2", receipt_handle := "rh-2", msgType := "match_request" }

/-- A handler table whose `match_request` handler completes. -/
def sampleHandlers (t : String) : Option (QueueMessage → HandlerRun) :=
  if t = "match_request" then some (fun _ => HandlerRun.completes) else none

/-- A request outcome map under which every message succeeds. -/
def sampleOutcome (_ : QueueMessage) : RequestOutcome := RequestOutcome.succeeded

/-! ## Theorems -/

attribute [local semireducible] Rat.add Rat.mul Rat.sub Rat.inv Rat.ofScientific

/-- C9: the five sub-score weights applied by `calculate_score` — 0.30
sector, 0.25 financial, 0.20 timeline, 0.15 ROI, 0.10 technical — sum to
exactly 1. -/
theorem scoring_weights_sum_to_one :
    sectorWeight + financialWeight + timelineWeight + roiWeight + technicalWeight = 1 := by
  norm_num [sectorWeight, financialWeight, timelineWeight, roiWeight, technicalWeight]

/-- C2 counterexample: executing `create_bundle`'s `INSERT` twice with the
same deterministic bundle id leaves two rows carrying that id in the
bundles table, not one — the statement has no conflict clause, so no second
write ever updates an existing row. -/
theorem create_bundle_insert_duplicates :
    ((insertBundleRow (insertBundleRow [] sampleBundleRow) sampleBundleRow).filter
      (fun r => r.bundle_id = sampleBundleRow.bundle_id)).length = 2 := by decide

/-- C2 amended: the idempotent upsert keyed by the deterministic id exists
in the batch term-matching path (`save_match_result`): writing the same
`match_id` twice leaves exactly one row, the second write updating only the
mutable fields (name, description, cities, score, analysis) and keeping the
identity fields of the first write. -/
theorem term_match_upsert_idempotent (r1 r2 : MatchRow)
    (h : r1.match_id = r2.match_id) :
    upsertMatchRow (upsertMatchRow [] r1) r2 =
      [{ r1 with bundle_name := r2.bundle_name,
                 bundle_description := r2.bundle_description,
                 cities := r2.cities,
                 overall_match_score := r2.overall_match_score,
                 match_analysis := r2.match_analysis }] := by
  simp [upsertMatchRow, h]

/-- Witness for the amended C2 theorem at two concrete writes of the same
`match_id`. -/
theorem term_match_upsert_idempotent_witness :
    sampleMatchRow1.match_id = sampleMatchRow2.match_id ∧
    upsertMatchRow (upsertMatchRow [] sampleMatchRow1) sampleMatchRow2 =
      [{ sampleMatchRow1 with
          bundle_name := sampleMatchRow2.bundle_name,
          bundle_description := sampleMatchRow2.bundle_description,
          cities := sampleMatchRow2.cities,
          overall_match_score := sampleMatchRow2.overall_match_score,
          match_analysis := sampleMatchRow2.match_analysis }] :=
  ⟨by decide, term_match_upsert_idempotent sampleMatchRow1 sampleMatchRow2 (by decide)⟩

/-- C6 counterexample: for the scenario funder (solar energy, minimum
1,000,000, ROI 10) and a single same-sector opportunity of 200,000, it is
false that the overall score is below 0.60 with no match persisted. -/
theorem single_small_opportunity_not_rejected :
    ¬ ((calculate_score scenarioFunder [scenarioOpp]).1 < 0.60 ∧
       findMatches [scenarioOpp] [scenarioFunder] = []) := by decide

/-- C6 amended: the financial-fit sub-score of that scenario is 0.3 as
claimed, but the overall compatibility score is 0.66, at or above the 0.60
threshold, so `find_matches` persists a simple medium-confidence match. -/
theorem single_small_opportunity_scores :
    (scoreFinancialFit scenarioFunder.criteria.financial [scenarioOpp]).1 = 0.3 ∧
    (calculate_score scenarioFunder [scenarioOpp]).1 = 0.66 ∧
    (0.60 : ℚ) ≤ (calculate_score scenarioFunder [scenarioOpp]).1 ∧
    (findMatches [scenarioOpp] [scenarioFunder]).map
      (fun m => (m.matchType, m.confidence)) = [("simple", "medium")] := by decide

/-- C7 counterexample: a run triggered with an active funding alert but no
active investment alerts returns early and emits no message at all — in
particular no aggregate `match_result` summary. -/
theorem empty_run_emits_no_result :
    processMatchRequest [] [scenarioFunder] = [] ∧
    (processMatchRequest [] [scenarioFunder]).countP isMatchResult = 0 := by decide

/-- C7 amended: in every run that finds at least one active funding alert
and at least one active investment alert, a `match_found` message is
emitted for each persisted match of high confidence, and exactly one
aggregate `match_result` summary message is emitted; a run whose alert
fetch comes back empty on either side emits nothing. -/
theorem run_emissions (invs funds : List Alert) (hf : funds ≠ []) (hi : invs ≠ []) :
    (∀ m ∈ findMatches invs funds, m.confidence = "high" →
        EmittedMessage.matchFound m ∈ processMatchRequest invs funds) ∧
    (processMatchRequest invs funds).countP isMatchResult = 1 := by
  have hf' : funds.isEmpty = false := by simp [List.isEmpty_iff, hf]
  have hi' : invs.isEmpty = false := by simp [List.isEmpty_iff, hi]
  constructor
  · intro m hm hconf
    simp only [processMatchRequest, hf', hi', Bool.false_eq_true, if_false]
    refine List.mem_append_left _ (List.mem_map_of_mem _ ?_)
    exact List.mem_filter.mpr ⟨hm, by simp [hconf]⟩
  · simp only [processMatchRequest, hf', hi', Bool.false_eq_true, if_false]
    rw [List.countP_append]
    have h0 : (((findMatches invs funds).filter
        (fun m => m.confidence = "high")).map EmittedMessage.matchFound).countP
          isMatchResult = 0 := by
      refine List.countP_eq_zero.mpr ?_
      intro a ha
      obtain ⟨m, _, rfl⟩ := List.mem_map.mp ha
      simp [isMatchResult]
    rw [h0]
    simp [isMatchResult]

/-- Witness for the amended C7 theorem: the run over the concrete scenario
alerts emits exactly one `match_result`. -/
theorem run_emissions_witness :
    ([scenarioOpp] : List Alert) ≠ [] ∧ ([scenarioFunder] : List Alert) ≠ [] ∧
    (processMatchRequest [scenarioOpp] [scenarioFunder]).countP isMatchResult = 1 :=
  ⟨by decide, by decide,
    (run_emissions [scenarioOpp] [scenarioFunder] (by decide) (by decide)).2⟩

/-- C8: `calculate_bundle_metrics` of the empty opportunity list reports a
total investment of 0 and an average carbon per project of 0, and for every
opportunity list whose total investment is 0 the blended ROI is 0 — the
weighted-ROI division is guarded and never performed with denominator 0. -/
theorem bundle_metrics_zero_safe :
    (calculate_bundle_metrics []).total_investment = 0 ∧
    (calculate_bundle_metrics []).average_carbon_per_project = 0 ∧
    ∀ opps : List Alert, (calculate_bundle_metrics opps).total_investment = 0 →
      (calculate_bundle_metrics opps).blended_roi = 0 := by
  refine ⟨by decide, by decide, ?_⟩
  intro opps h
  simp only [calculate_bundle_metrics] at h ⊢
  rw [h]
  norm_num [roundTo2, roundHalfEven]

/-- Witness for C8 at a concrete one-element list with zero amounts. -/
theorem bundle_metrics_zero_safe_witness :
    (calculate_bundle_metrics [blankOpp]).total_investment = 0 ∧
    (calculate_bundle_metrics [blankOpp]).blended_roi = 0 :=
  ⟨by decide, bundle_metrics_zero_safe.2.2 [blankOpp] (by decide)⟩

/-- C10: when the funder's primary sector is set and every opportunity of a
non-empty list carries an empty sector string (both top level and inside
its criteria), the all-match test of `_score_sector_alignment` filters out
the empty sectors and succeeds vacuously: the sub-score is 1.0 with
criterion `sector_perfect_match`, not the 0.2 mismatch or a neutral value. -/
theorem empty_sectors_vacuous_perfect_match (fs : SectorInfo) (opps : List Alert)
    (hp : pyLower (fs.primary.getD "") ≠ "") (hne : opps ≠ [])
    (hs : ∀ o ∈ opps, o.sector.getD "" = "" ∧ o.criteria.sector.primary.getD "" = "") :
    scoreSectorAlignment fs opps = (1.0, ["sector_perfect_match"]) := by
  have _hne := hne
  have hsec : ∀ o ∈ opps, oppScoringSector o = "" := by
    intro o ho
    obtain ⟨h1, h2⟩ := hs o ho
    simp only [oppScoringSector]
    rw [h1, h2]
    decide
  have hfil : (opps.map oppScoringSector).filter (fun s => s ≠ "") = [] := by
    refine List.filter_eq_nil_iff.mpr ?_
    intro a ha
    obtain ⟨o, ho, rfl⟩ := List.mem_map.mp ha
    simp [hsec o ho]
  simp only [scoreSectorAlignment]
  rw [if_neg hp, hfil]
  simp

/-- Witness for C10: one blank opportunity against a solar-energy funder
sector scores a vacuous perfect match. -/
theorem empty_sectors_vacuous_perfect_match_witness :
    pyLower ((SectorInfo.mk (some "solar_energy")).primary.getD "") ≠ "" ∧
    scoreSectorAlignment (SectorInfo.mk (some "solar_energy")) [blankOpp] =
      (1.0, ["sector_perfect_match"]) :=
  ⟨by decide,
    empty_sectors_vacuous_perfect_match (SectorInfo.mk (some "solar_energy")) [blankOpp]
      (by decide) (by decide) (by decide)⟩

/-- C5: a received message is deleted only after its handler completed
successfully.  In `poll_and_process`, a deleted message is one whose
`process_message` returned `True`, which requires a registered handler that
completed without raising; in `MatchingAgent.run`, a deleted message is one
whose `process_match_request` returned `True` — a `False` return or an
exception leaves the message undeleted, so the transport redelivers it
after the visibility timeout. -/
theorem ack_only_after_success
    (handlers : String → Option (QueueMessage → HandlerRun))
    (outcome : QueueMessage → RequestOutcome) (deleteAfter : Bool)
    (msgs : List QueueMessage) :
    (∀ m ∈ pollBatchDeleted handlers deleteAfter msgs,
        processMessage handlers m = true ∧
        ∃ h, handlers m.msgType = some h ∧ h m = HandlerRun.completes) ∧
    (∀ m ∈ runBatchDeleted outcome msgs, outcome m = RequestOutcome.succeeded) := by
  constructor
  · intro m hm
    have hmem := List.mem_filter.mp hm
    have hp : processMessage handlers m = true := by
      have h2 := hmem.2
      simp only [Bool.and_eq_true] at h2
      exact h2.1
    refine ⟨hp, ?_⟩
    unfold processMessage at hp
    cases hh : handlers m.msgType with
    | none => rw [hh] at hp; simp at hp
    | some h =>
      refine ⟨h, rfl, ?_⟩
      rw [hh] at hp
      cases hr : h m with
      | completes => rfl
      | raises => simp [hr] at hp
  · intro m
    induction msgs with
    | nil => intro hm; exact absurd hm (by simp [runBatchDeleted])
    | cons x rest ih =>
      intro hm
      cases ho : outcome x with
      | succeeded =>
        rw [runBatchDeleted, ho] at hm
        rcases List.mem_cons.mp hm with h | h
        · rw [h]; exact ho
        · exact ih h
      | failed =>
        rw [runBatchDeleted, ho] at hm
        exact ih hm
      | raised =>
        rw [runBatchDeleted, ho] at hm
        exact absurd hm (by simp)

/-- The sector-alignment sub-score always lies in the unit interval. -/
lemma sectorScore_bounds (fs : SectorInfo) (opps : List Alert) :
    0 ≤ (scoreSectorAlignment fs opps).1 ∧ (scoreSectorAlignment fs opps).1 ≤ 1 := by
  simp only [scoreSectorAlignment]
  split_ifs <;> norm_num

/-- The financial-fit sub-score always lies in the unit interval. -/
lemma financialScore_bounds (ff : FinancialInfo) (opps : List Alert) :
    0 ≤ (scoreFinancialFit ff opps).1 ∧ (scoreFinancialFit ff opps).1 ≤ 1 := by
  simp only [scoreFinancialFit]
  split_ifs <;> norm_num

/-- The timeline sub-score always lies in the unit interval. -/
lemma timelineScore_bounds (ft : TimelineInfo) (opps : List Alert) :
    0 ≤ (scoreTimelineCompatibility ft opps).1 ∧
      (scoreTimelineCompatibility ft opps).1 ≤ 1 := by
  simp only [scoreTimelineCompatibility]
  split_ifs <;> norm_num

/-- The ROI sub-score always lies in the unit interval. -/
lemma roiScore_bounds (ff : FinancialInfo) (opps : List Alert) :
    0 ≤ (scoreRoiExpectations ff opps).1 ∧ (scoreRoiExpectations ff opps).1 ≤ 1 := by
  simp only [scoreRoiExpectations]
  split_ifs <;> norm_num

/-- The technical sub-score always lies in the unit interval. -/
lemma technicalScore_bounds (ft : TechnicalInfo) (opps : List Alert) :
    0 ≤ (scoreTechnicalCompatibility ft opps).1 ∧
      (scoreTechnicalCompatibility ft opps).1 ≤ 1 := by
  simp only [scoreTechnicalCompatibility]
  split_ifs <;> norm_num

/-- C3: for every funder record and every (possibly empty) opportunity
list, `calculate_score` returns a compatibility score in the closed
interval from 0 to 1. -/
theorem score_in_unit_interval (funder : Alert) (opps : List Alert) :
    0 ≤ (calculate_score funder opps).1 ∧ (calculate_score funder opps).1 ≤ 1 := by
  obtain ⟨h1l, h1u⟩ := sectorScore_bounds funder.criteria.sector opps
  obtain ⟨h2l, h2u⟩ := financialScore_bounds funder.criteria.financial opps
  obtain ⟨h3l, h3u⟩ := timelineScore_bounds funder.criteria.timeline opps
  obtain ⟨h4l, h4u⟩ := roiScore_bounds funder.criteria.financial opps
  obtain ⟨h5l, h5u⟩ := technicalScore_bounds funder.criteria.technical opps
  simp only [calculate_score, sectorWeight, financialWeight, timelineWeight, roiWeight,
    technicalWeight]
  constructor <;> nlinarith [h1l, h1u, h2l, h2u, h3l, h3u, h4l, h4u, h5l, h5u]

/-- Every record produced by the single-opportunity pass carries a score of
at least 0.60. -/
lemma singleMatches_score (f : Alert) (b : List Alert) :
    ∀ m ∈ singleMatches f b, (0.60 : ℚ) ≤ m.score := by
  intro m hm
  rw [singleMatches] at hm
  obtain ⟨o, ho, he⟩ := List.mem_filterMap.mp hm
  dsimp only at he
  split_ifs at he with h h2
  · obtain rfl := Option.some_inj.mp he
    simpa using h
  · obtain rfl := Option.some_inj.mp he
    simpa using h

/-- Case analysis of one combination step: it either keeps the accumulator
unchanged (skip, too-low score, or not beating the running best), or
installs the scored combination as the new best. -/
lemma comboStep_cases (f : Alert) (mi : ℚ) (acc : ℚ × Option Candidate)
    (combo : List Alert) :
    comboStep f mi acc combo = acc ∨
    (¬(totalAmount combo < mi * 0.8) ∧ (0.60 : ℚ) ≤ (calculate_score f combo).1 ∧
      acc.1 < (calculate_score f combo).1 ∧
      comboStep f mi acc combo =
        ((calculate_score f combo).1,
          some { opportunities := combo, score := (calculate_score f combo).1,
                 criteriaMet := (calculate_score f combo).2.1,
                 warnings := (calculate_score f combo).2.2 })) := by
  simp only [comboStep]
  split_ifs with h1 h2
  · exact Or.inl rfl
  · exact Or.inr ⟨h1, h2.1, h2.2, rfl⟩
  · exact Or.inl rfl

/-- Invariant of the combination fold: whenever a best candidate is
installed, its score is at least 0.60 and equals the running best score. -/
lemma comboFold_some (f : Alert) (mi : ℚ) :
    ∀ (L : List (List Alert)) (acc : ℚ × Option Candidate),
      (∀ c, acc.2 = some c → (0.60 : ℚ) ≤ c.score ∧ acc.1 = c.score) →
      ∀ c, (L.foldl (comboStep f mi) acc).2 = some c →
        (0.60 : ℚ) ≤ c.score ∧ (L.foldl (comboStep f mi) acc).1 = c.score := by
  intro L
  induction L with
  | nil => intro acc hacc c hc; exact hacc c hc
  | cons x xs ih =>
    intro acc hacc c hc
    rw [List.foldl_cons] at hc ⊢
    refine ih (comboStep f mi acc x) ?_ c hc
    intro d hd
    rcases comboStep_cases f mi acc x with he | ⟨_, h2, _, he⟩
    · rw [he] at hd ⊢; exact hacc d hd
    · rw [he] at hd ⊢
      simp only at hd
      obtain rfl := Option.some_inj.mp hd
      exact ⟨h2, rfl⟩

/-- The running best score never decreases along the combination fold. -/
lemma comboFold_mono (f : Alert) (mi : ℚ) :
    ∀ (L : List (List Alert)) (acc : ℚ × Option Candidate),
      acc.1 ≤ (L.foldl (comboStep f mi) acc).1 := by
  intro L
  induction L with
  | nil => intro acc; simp
  | cons x xs ih =>
    intro acc
    rw [List.foldl_cons]
    refine le_trans ?_ (ih (comboStep f mi acc x))
    rcases comboStep_cases f mi acc x with he | ⟨_, _, h3, he⟩
    · rw [he]
    · rw [he]; exact le_of_lt h3

/-- The final best score dominates the score of every combination of the
fold's list that passes the investment pre-filter and the 0.60 threshold. -/
lemma comboFold_ge (f : Alert) (mi : ℚ) :
    ∀ (L : List (List Alert)) (acc : ℚ × Option Candidate) (c : List Alert),
      c ∈ L → ¬(totalAmount c < mi * 0.8) → (0.60 : ℚ) ≤ (calculate_score f c).1 →
      (calculate_score f c).1 ≤ (L.foldl (comboStep f mi) acc).1 := by
  intro L
  induction L with
  | nil => intro acc c hc; exact absurd hc (by simp)
  | cons x xs ih =>
    intro acc c hc ht hs
    rw [List.foldl_cons]
    rcases List.mem_cons.mp hc with rfl | hmem
    · refine le_trans ?_ (comboFold_mono f mi xs (comboStep f mi acc c))
      simp only [comboStep]
      rw [if_neg ht]
      split_ifs with h
      · simp
      · push_neg at h
        exact h hs
    · exact ih (comboStep f mi acc x) c hmem ht hs

/-- Provenance of the selected candidate: it was installed from a
combination of the fold's list that passed the investment pre-filter, and
it carries exactly the score, criteria and warnings of `calculate_score` on
that combination. -/
lemma comboFold_provenance (f : Alert) (mi : ℚ) :
    ∀ (L : List (List Alert)) (acc : ℚ × Option Candidate) (c : Candidate),
      (L.foldl (comboStep f mi) acc).2 = some c →
      acc.2 = some c ∨
        (c.opportunities ∈ L ∧ ¬(totalAmount c.opportunities < mi * 0.8) ∧
          (0.60 : ℚ) ≤ c.score ∧ c.score = (calculate_score f c.opportunities).1 ∧
          c.criteriaMet = (calculate_score f c.opportunities).2.1 ∧
          c.warnings = (calculate_score f c.opportunities).2.2) := by
  intro L
  induction L with
  | nil => intro acc c hc; exact Or.inl hc
  | cons x xs ih =>
    intro acc c hc
    rw [List.foldl_cons] at hc
    rcases ih (comboStep f mi acc x) c hc with h | h
    · rcases comboStep_cases f mi acc x with he | ⟨h1, h2, _, he⟩
      · rw [he] at h; exact Or.inl h
      · rw [he] at h
        simp only at h
        obtain rfl := Option.some_inj.mp h
        exact Or.inr ⟨List.mem_cons_self x xs, h1, h2, rfl, rfl, rfl⟩
    · exact Or.inr ⟨List.mem_cons_of_mem x h.1, h.2.1, h.2.2.1, h.2.2.2.1,
        h.2.2.2.2.1, h.2.2.2.2.2⟩

/-- Every member of `combinations l k` has length k. -/
lemma combinations_length {α : Type _} :
    ∀ (l : List α) (k : Nat), ∀ c ∈ combinations l k, c.length = k := by
  intro l
  induction l with
  | nil =>
    intro k c hc
    cases k with
    | zero => rw [combinations] at hc; simp at hc; simp [hc]
    | succ n => rw [combinations] at hc; cases hc
  | cons x xs ih =>
    intro k c hc
    cases k with
    | zero => rw [combinations] at hc; simp at hc; simp [hc]
    | succ n =>
      rw [combinations] at hc
      rcases List.mem_append.mp hc with h | h
      · obtain ⟨d, hd, rfl⟩ := List.mem_map.mp h
        simp [ih n d hd]
      · exact ih (n + 1) c h

/-- The bundle sizes enumerated for a bucket of n opportunities are exactly
the sizes from 2 up to the minimum of n and `max_bundle_size`. -/
lemma bundleSizes_mem (n s : Nat) :
    s ∈ bundleSizes n ↔ 2 ≤ s ∧ s ≤ min n max_bundle_size := by
  rw [bundleSizes, List.mem_range'_1]
  unfold max_bundle_size
  omega

/-- Membership characterisation of the bundled pass: every created bundle
match record comes from the best candidate of one enumerated size. -/
lemma bundleMatches_mem (f : Alert) (bucket : List Alert) (mi : ℚ) (m : MatchRec) :
    m ∈ bundleMatches f bucket mi →
      ∃ size ∈ bundleSizes bucket.length, ∃ c : Candidate,
        bestBundleForSize f bucket mi size = some c ∧
        m = { opportunities := c.opportunities, matchType := "bundled", score := c.score,
              criteriaMet := c.criteriaMet, warnings := c.warnings,
              confidence := if (0.80 : ℚ) ≤ c.score then "high" else "medium" } := by
  intro hm
  rw [bundleMatches] at hm
  obtain ⟨size, hsize, he⟩ := List.mem_filterMap.mp hm
  cases hb : bestBundleForSize f bucket mi size with
  | none => rw [hb] at he; cases he
  | some c =>
    rw [hb] at he
    simp only [Option.map] at he
    obtain rfl := Option.some_inj.mp he
    exact ⟨size, hsize, c, hb, rfl⟩

/-- Every record produced by the bundled pass carries a score of at least
0.60. -/
lemma bundleMatches_score (f : Alert) (bucket : List Alert) (mi : ℚ) :
    ∀ m ∈ bundleMatches f bucket mi, (0.60 : ℚ) ≤ m.score := by
  intro m hm
  obtain ⟨size, _, c, hb, rfl⟩ := bundleMatches_mem f bucket mi m hm
  rw [bestBundleForSize] at hb
  have := comboFold_some f mi (combinations bucket size) (0, none)
    (fun c hc => by cases hc) c hb
  simpa using this.1

/-- C1: `find_matches` persists a match or bundle record only when its
computed compatibility score is at least 0.60; no single-opportunity or
combination candidate scoring below 0.60 is ever persisted. -/
theorem matches_persisted_only_at_threshold (invs funds : List Alert) :
    ∀ m ∈ findMatches invs funds, (0.60 : ℚ) ≤ m.score := by
  intro m hm
  rw [findMatches] at hm
  obtain ⟨f, _, hmf⟩ := List.mem_flatMap.mp hm
  rw [funderMatches] at hmf
  split_ifs at hmf with h1 h2
  · cases hmf
  · rcases List.mem_append.mp hmf with h | h
    · exact singleMatches_score f _ m h
    · exact bundleMatches_score f _ _ m h
  · rcases List.mem_append.mp hmf with h | h
    · exact singleMatches_score f _ m h
    · cases h

/-- A filterMap over distinct keys, whose results are tagged with their
key, yields at most one element per tag. -/
lemma keyed_filterMap_count (g : Nat → Option MatchRec)
    (hk : ∀ s m, g s = some m → m.opportunities.length = s) (s : Nat) :
    ∀ sizes : List Nat, sizes.Nodup →
      ((sizes.filterMap g).filter (fun m => m.opportunities.length = s)).length ≤ 1 := by
  intro sizes
  induction sizes with
  | nil => intro _; simp
  | cons a rest ih =>
    intro hn
    obtain ⟨ha, hrest⟩ := List.nodup_cons.mp hn
    rw [List.filterMap_cons]
    cases hg : g a with
    | none => exact ih hrest
    | some m =>
      rw [List.filter_cons]
      by_cases hms : m.opportunities.length = s
      · rw [if_pos (by simpa using hms)]
        have hz : (((rest.filterMap g).filter
            (fun m2 => m2.opportunities.length = s))).length = 0 := by
          rw [List.length_eq_zero]
          refine List.filter_eq_nil_iff.mpr ?_
          intro b hb
          obtain ⟨s2, hs2, hgs2⟩ := List.mem_filterMap.mp hb
          have hbl : b.opportunities.length = s2 := hk s2 b hgs2
          have hma : m.opportunities.length = a := hk a m hg
          simp only [decide_eq_true_eq]
          intro hbs
          have hs2a : s2 = a := by omega
          exact ha (hs2a ▸ hs2)
        simp [hz]
      · rw [if_neg (by simpa using hms)]
        exact ih hrest

/-- C4: whenever a funder has a positive minimum requirement and its sector
bucket holds at least two opportunities, the bundle search enumerates
exactly the combination sizes 2 up to the minimum of the bucket size and
`max_bundle_size` (never any size above 5), every persisted bundle comes
from an enumerated combination whose summed investment passed the 80%
pre-filter, scored at least 0.60, and dominates every other combination of
its size passing the pre-filter, and at most one bundle is persisted per
size. -/
theorem bundle_search_bounded (funder : Alert) (bucket : List Alert) (mi : ℚ)
    (hmi : 0 < mi) (hb : 2 ≤ bucket.length) :
    (∀ s, s ∈ bundleSizes bucket.length ↔
        2 ≤ s ∧ s ≤ min bucket.length max_bundle_size) ∧
    (∀ m ∈ bundleMatches funder bucket mi,
      2 ≤ m.opportunities.length ∧ m.opportunities.length ≤ max_bundle_size ∧
      m.opportunities ∈ combinations bucket m.opportunities.length ∧
      ¬(totalAmount m.opportunities < mi * 0.8) ∧
      (0.60 : ℚ) ≤ m.score ∧ m.score = (calculate_score funder m.opportunities).1 ∧
      ∀ c ∈ combinations bucket m.opportunities.length,
        ¬(totalAmount c < mi * 0.8) → (calculate_score funder c).1 ≤ m.score) ∧
    (∀ s, ((bundleMatches funder bucket mi).filter
        (fun m => m.opportunities.length = s)).length ≤ 1) := by
  have _hmi := hmi
  have _hb := hb
  refine ⟨fun s => bundleSizes_mem bucket.length s, ?_, ?_⟩
  · intro m hm
    obtain ⟨size, hsize, c, hbest, rfl⟩ := bundleMatches_mem funder bucket mi m hm
    have hfold := hbest
    rw [bestBundleForSize] at hfold
    rcases comboFold_provenance funder mi (combinations bucket size) (0, none) c hfold
      with h | ⟨hmem, hflt, hsc, hscore, _, _⟩
    · cases h
    have hlen : c.opportunities.length = size := combinations_length bucket size _ hmem
    have hinv := comboFold_some funder mi (combinations bucket size) (0, none)
      (fun d hd => by cases hd) c hfold
    have hsz := (bundleSizes_mem bucket.length size).mp hsize
    refine ⟨?_, ?_, ?_, ?_, ?_, ?_, ?_⟩
    · simpa [hlen] using hsz.1
    · simpa [hlen] using le_trans hsz.2 (Nat.min_le_right _ _)
    · simpa [hlen] using hmem
    · simpa using hflt
    · simpa using hsc
    · simpa using hscore
    · intro c2 hc2 hflt2
      have hc2' : c2 ∈ combinations bucket size := by
        have h0 : c2 ∈ combinations bucket c.opportunities.length := by simpa using hc2
        rwa [hlen] at h0
      show (calculate_score funder c2).1 ≤ c.score
      by_cases h06 : (0.60 : ℚ) ≤ (calculate_score funder c2).1
      · have hge := comboFold_ge funder mi (combinations bucket size) (0, none)
          c2 hc2' hflt2 h06
        rw [hinv.2] at hge
        exact hge
      · exact le_of_lt (lt_of_lt_of_le (lt_of_not_le h06) hsc)
  · intro s
    rw [bundleMatches]
    refine keyed_filterMap_count _ ?_ s (bundleSizes bucket.length) ?_
    · intro size m hg
      cases hbo : bestBundleForSize funder bucket mi size with
      | none => rw [hbo] at hg; cases hg
      | some c =>
        rw [hbo] at hg
        simp only [Option.map] at hg
        obtain rfl := Option.some_inj.mp hg
        have hfold := hbo
        rw [bestBundleForSize] at hfold
        rcases comboFold_provenance funder mi (combinations bucket size) (0, none) c hfold
          with h | ⟨hmem, _⟩
        · cases h
        · simpa using combinations_length bucket size _ hmem
    · rw [bundleSizes]
      exact List.nodup_range' _ _

/-- Witness for C4: the scenario funder with a two-opportunity solar bucket
satisfies both guards, so all parts of the bundle-search property hold at
that concrete input. -/
theorem bundle_search_bounded_witness :
    (0 : ℚ) < 1000000 ∧ 2 ≤ ([bundleOppA, bundleOppB] : List Alert).length ∧
    ((∀ s, s ∈ bundleSizes ([bundleOppA, bundleOppB] : List Alert).length ↔
        2 ≤ s ∧ s ≤ min ([bundleOppA, bundleOppB] : List Alert).length max_bundle_size) ∧
    (∀ m ∈ bundleMatches scenarioFunder [bundleOppA, bundleOppB] 1000000,
      2 ≤ m.opportunities.length ∧ m.opportunities.length ≤ max_bundle_size ∧
      m.opportunities ∈ combinations [bundleOppA, bundleOppB] m.opportunities.length ∧
      ¬(totalAmount m.opportunities < 1000000 * 0.8) ∧
      (0.60 : ℚ) ≤ m.score ∧
      m.score = (calculate_score scenarioFunder m.opportunities).1 ∧
      ∀ c ∈ combinations [bundleOppA, bundleOppB] m.opportunities.length,
        ¬(totalAmount c < 1000000 * 0.8) →
          (calculate_score scenarioFunder c).1 ≤ m.score) ∧
    (∀ s, ((bundleMatches scenarioFunder [bundleOppA, bundleOppB] 1000000).filter
        (fun m => m.opportunities.length = s)).length ≤ 1)) :=
  ⟨by norm_num, by decide,
    bundle_search_bounded scenarioFunder [bundleOppA, bundleOppB] 1000000
      (by norm_num) (by decide)⟩

/-- Witness for C1 at a concrete run that persists one match. -/
theorem matches_persisted_only_at_threshold_witness :
    (findMatches [scenarioOpp] [scenarioFunder]).headI ∈
        findMatches [scenarioOpp] [scenarioFunder] ∧
    (0.60 : ℚ) ≤ (findMatches [scenarioOpp] [scenarioFunder]).headI.score :=
  ⟨by decide,
    matches_persisted_only_at_threshold [scenarioOpp] [scenarioFunder] _ (by decide)⟩

/-- Witness for C5 at a concrete handler table (whose registered handler
completes) and a concrete two-message batch. -/
theorem ack_only_after_success_witness :
    (sampleMessage ∈ pollBatchDeleted sampleHandlers true [sampleMessage, sampleMessage2] ∧
      processMessage sampleHandlers sampleMessage = true) ∧
    (sampleMessage ∈ runBatchDeleted sampleOutcome [sampleMessage, sampleMessage2] ∧
      sampleOutcome sampleMessage = RequestOutcome.succeeded) :=
  ⟨⟨by decide,
      ((ack_only_after_success sampleHandlers sampleOutcome true
        [sampleMessage, sampleMessage2]).1 sampleMessage (by decide)).1⟩,
    ⟨by decide,
      (ack_only_after_success sampleHandlers sampleOutcome true
        [sampleMessage, sampleMessage2]).2 sampleMessage (by decide)⟩⟩
